import Mathlib

/-!
Verification development for the mining slope-stability risk dashboard
(`src/app.py`). The risk core — the scorer `compute_score`, the bench/group
catalog, the evaluation cycle `update_dashboard` (scoring loop, bounded
history buffer, geo-layer building) and the CSV export — is shallowly
embedded below. Python floats are modelled as exact rationals (ℚ); the
process-shared random source (`random.uniform`, `random.randint`) is
modelled as an explicit stream of unit draws threaded through every call
that may consume randomness.
-/

/-- The three risk classes returned by `compute_score` in `src/app.py`. -/
inductive Classification where
  | Low
  | Medium
  | High
deriving DecidableEq, Repr

/-- Numeric severity order on classes: Low < Medium < High. -/
def severity : Classification → ℕ
  | .Low => 0
  | .Medium => 1
  | .High => 2

/-- The shared random source: an abstract stream of unit draws
(`seq n` is the n-th raw draw in [0,1]) together with the number of draws
already consumed (`pos`). Models Python's process-global `random` module
state; consuming a draw advances `pos`. -/
structure RNG where
  seq : ℕ → ℚ
  pos : ℕ

/-- `random.uniform(a, b)`: one raw draw `u`, result `a + (b-a)*u`. -/
def RNG.uniform (g : RNG) (a b : ℚ) : ℚ × RNG :=
  (a + (b - a) * g.seq g.pos, ⟨g.seq, g.pos + 1⟩)

/-- `random.randint(a, b)`: consumes one draw and yields an integer in
`[a, b]` (modelled as `a + ⌊(b - a + 1) * u⌋`, cast to ℚ). -/
def RNG.randint (g : RNG) (a b : ℤ) : ℚ × RNG :=
  (((a + ⌊(((b : ℚ) - a + 1)) * g.seq g.pos⌋ : ℤ) : ℚ), ⟨g.seq, g.pos + 1⟩)

/-- The classification branch at the end of `compute_score`
(`src/app.py` lines 55-60): `score < 40 → Low`, `elif score < 70 → Medium`,
`else High`. -/
def classify (score : ℚ) : Classification :=
  if score < 40 then .Low
  else if score < 70 then .Medium
  else .High

/-- `compute_score(rain, vib, blast, slope, deterministic)` from
`src/app.py` lines 50-60, with the shared random source threaded
explicitly. Returns the `(classification, score)` pair and the random
source state after the call. -/
def compute_score (g : RNG) (rain vib blast slope : ℚ) (deterministic : Bool) :
    (Classification × ℚ) × RNG :=
  let (mult, g1) := if deterministic then ((2.0 : ℚ), g) else g.uniform 1.5 3.0
  let vib_from_blast := blast * mult
  let total_vib := vib + vib_from_blast
  let (noise, g2) := if deterministic then ((0 : ℚ), g1) else g1.uniform (-5) 5
  let score := slope / 2 + rain * 0.4 + total_vib * 5 + blast * 3 + noise
  ((classify score, score), g2)

/-- The value of the deterministic score as a closed formula:
`slope/2 + rain*0.4 + (vib + blast*2.0)*5 + blast*3`. -/
def detScore (rain vib blast slope : ℚ) : ℚ :=
  slope / 2 + rain * 0.4 + (vib + blast * 2.0) * 5 + blast * 3

/-- Python's `round(x, 1)` on exact values: round half to even at one
decimal place. -/
def halfEven (x : ℚ) : ℤ :=
  let n := ⌊x⌋
  let f := x - n
  if f < 1/2 then n
  else if 1/2 < f then n + 1
  else if 2 ∣ n then n else n + 1

/-- `round(score, 1)` as applied in `update_dashboard`. -/
def pyRound1 (x : ℚ) : ℚ := (halfEven (x * 10) : ℚ) / 10

/-- A bench of the static catalog: id, slope and ground polygon
(`benches` in `src/app.py` lines 65-70). -/
structure Bench where
  id : String
  slope : ℚ
  coords : List (ℚ × ℚ)
deriving DecidableEq, Repr

/-- The static bench catalog from `src/app.py` lines 65-70 (coordinates
are the exact decimal literals of the source; each polygon is stored
explicitly closed, first vertex repeated at the end, as in the source). -/
def benches : List Bench :=
  [⟨"Bench 1", 35, [(23.1792, 72.6508), (23.1792, 72.6524), (23.1779, 72.6529),
     (23.1768, 72.6518), (23.1775, 72.6506), (23.1792, 72.6508)]⟩,
   ⟨"Bench 2", 50, [(23.1735, 72.6448), (23.1736, 72.6468), (23.1724, 72.6473),
     (23.1715, 72.6462), (23.1719, 72.6450), (23.1735, 72.6448)]⟩,
   ⟨"Bench 3", 45, [(23.1710, 72.6504), (23.1708, 72.6517), (23.1696, 72.6521),
     (23.1688, 72.6510), (23.1694, 72.6499), (23.1710, 72.6504)]⟩,
   ⟨"Bench 4", 60, [(23.1670, 72.6420), (23.1672, 72.6445), (23.1653, 72.6450),
     (23.1643, 72.6433), (23.1651, 72.6416), (23.1670, 72.6420)]⟩]

/-- A monitored group: the bench ids sharing one environmental reading
(`groups` in `src/app.py` lines 72-75). -/
structure BenchGroup where
  benches : List String
deriving DecidableEq, Repr, Inhabited

/-- The two groups from `src/app.py`: Benches 1-2 and Benches 3-4. -/
def groups : List BenchGroup :=
  [⟨["Bench 1", "Bench 2"]⟩, ⟨["Bench 3", "Bench 4"]⟩]

/-- `next(b for b in benches if b["id"] == bench_id)`: first catalog bench
with the given id, `none` when absent (Python would raise StopIteration). -/
def findBench (bench_id : String) : Option Bench :=
  benches.find? (fun b => b.id == bench_id)

/-- `risk_color` from `src/app.py` lines 44-45. -/
def risk_color (level : Classification) : String :=
  match level with
  | .Low => "#4CAF50"
  | .Medium => "#F4C430"
  | .High => "#E53935"

/-- One per-bench row of the `results` list built in `update_dashboard`
(`src/app.py` lines 215-216): reading fields copied through, `score`
rounded to one decimal (`round(score, 1)`), `risk` the classification. -/
structure RiskResult where
  bench : String
  slope : ℚ
  rainfall : ℚ
  vibration : ℚ
  blast : ℚ
  score : ℚ
  risk : Classification
deriving DecidableEq, Repr

/-- One record of the rolling `history` list (`src/app.py` lines 218-220):
the six per-group reading fields plus the per-bench rounded scores (the
dict comprehension `{r["Bench"]: r["Score"]}`, kept as an association
list in results order). -/
structure HistoryRecord where
  rain1 : ℚ
  vib1 : ℚ
  blast1 : ℚ
  rain2 : ℚ
  vib2 : ℚ
  blast2 : ℚ
  scores : List (String × ℚ)
deriving DecidableEq, Repr

/-- `history.append(record)` followed by `if len(history) > 200:
history.pop(0)` (`src/app.py` lines 218-222). -/
def pushHistory (hist : List HistoryRecord) (record : HistoryRecord) :
    List HistoryRecord :=
  let h2 := hist ++ [record]
  if h2.length > 200 then h2.drop 1 else h2

/-- The inner scoring loop of `update_dashboard` for one group
(`src/app.py` lines 211-216): for each bench id of the group, look the
bench up in the catalog, invoke `compute_score` with the group's reading
and the bench's slope, and append the result row. `none` when a bench id
is missing from the catalog (Python would raise StopIteration). -/
def scoreGroup (g : RNG) (benchIds : List String) (gr gv gb : ℚ)
    (deterministic : Bool) : Option (List RiskResult × RNG) :=
  benchIds.foldl
    (fun acc bench_id => do
      let (rs, g0) ← acc
      let bench ← findBench bench_id
      let ((risk, score), g1) := compute_score g0 gr gv gb bench.slope deterministic
      some (rs ++ [⟨bench_id, bench.slope, gr, gv, gb, pyRound1 score, risk⟩], g1))
    (some ([], g))

/-- The map-marker centre for a bench (`src/app.py` lines 247-249):
arithmetic mean of the stored polygon coordinates,
`(sum(lats)/len(lats), sum(lons)/len(lons))`. -/
def centroid (coords : List (ℚ × ℚ)) : ℚ × ℚ :=
  ((coords.map Prod.fst).sum / coords.length,
   (coords.map Prod.snd).sum / coords.length)

/-- One concentric risk circle drawn per bench and layer
(`src/app.py` lines 250-259): centre, radius `30*(layer+1)`, colour keyed
by the re-computed classification, and the re-computed raw score. -/
structure GeoLayer where
  benchId : String
  layerIndex : ℕ
  center : ℚ × ℚ
  radius : ℚ
  color : String
  risk : Classification
  score : ℚ
deriving DecidableEq, Repr

/-- The three geo layers built for one result row `r`
(`src/app.py` lines 245-259): look up the bench, compute the centroid,
and for `layer in range(3)` re-invoke `compute_score` on the row's
(unrounded) reading fields with `bench["slope"] + layer*2` and the same
`deterministic` flag. -/
def layersFor (g : RNG) (r : RiskResult) (deterministic : Bool) :
    Option (List GeoLayer × RNG) := do
  let bench ← findBench r.bench
  let center := centroid bench.coords
  (List.range 3).foldl
    (fun acc (layer : ℕ) => do
      let (ls, g0) ← acc
      let ((risk, score), g1) :=
        compute_score g0 r.rainfall r.vibration r.blast
          (bench.slope + (layer : ℚ) * 2) deterministic
      some (ls ++ [⟨r.bench, layer, center, 30 * ((layer : ℚ) + 1),
                    risk_color risk, risk, score⟩], g1))
    (some ([], g))

/-- The full geo-layer pass of `update_dashboard`: the layer loop of
`layersFor` run over every result row, in results order. -/
def buildGeoLayers (g : RNG) (results : List RiskResult)
    (deterministic : Bool) : Option (List GeoLayer × RNG) :=
  results.foldl
    (fun acc r => do
      let (ls, g0) ← acc
      let (ls2, g1) ← layersFor g0 r deterministic
      some (ls ++ ls2, g1))
    (some ([], g))

/-- Everything one evaluation cycle produces: the per-bench result rows,
the newly built history record, the history buffer after append-and-trim,
the geo layers of the map, and the state of the shared random source
after the cycle. -/
structure TickOut where
  results : List RiskResult
  record : HistoryRecord
  newHistory : List HistoryRecord
  layers : List GeoLayer
  rng : RNG

/-- The body of one evaluation cycle once the six readings are fixed
(`src/app.py` lines 209-260): score both groups bench by bench
(`groups[0]` with the group-1 reading, `groups[1]` with the group-2
reading), build the history record from the readings and the per-bench
rounded scores, append it and trim the buffer to 200, then build the geo
layers from the result rows. -/
def tickCore (g : RNG) (rain1 vib1 blast1 rain2 vib2 blast2 : ℚ)
    (deterministic : Bool) (hist : List HistoryRecord) : Option TickOut := do
  let (res1, g1) ← scoreGroup g (groups.get ⟨0, by decide⟩).benches
    rain1 vib1 blast1 deterministic
  let (res2, g2) ← scoreGroup g1 (groups.get ⟨1, by decide⟩).benches
    rain2 vib2 blast2 deterministic
  let results := res1 ++ res2
  let record : HistoryRecord :=
    ⟨rain1, vib1, blast1, rain2, vib2, blast2,
     results.map (fun r => (r.bench, r.score))⟩
  let hist2 := pushHistory hist record
  let (layers, g3) ← buildGeoLayers g2 results deterministic
  some ⟨results, record, hist2, layers, g3⟩

/-- The risk core of the `update_dashboard` callback
(`src/app.py` lines 201-260): set `deterministic = (mode == "Manual")`;
in Auto mode overwrite the six readings with fresh random draws
(`randint(0,200)`, `round(uniform(0,10),1)`, `randint(0,5)` per group);
then run the cycle body `tickCore`. Chart/table/map rendering is
presentation glue and not modelled. -/
def update_dashboard (g : RNG) (rain1 vib1 blast1 rain2 vib2 blast2 : ℚ)
    (mode : String) (hist : List HistoryRecord) : Option TickOut :=
  let deterministic := mode == "Manual"
  if mode = "Auto" then
    let (r1, gA) := g.randint 0 200
    let (v1, gB) := gA.uniform 0 10
    let (b1, gC) := gB.randint 0 5
    let (r2, gD) := gC.randint 0 200
    let (v2, gE) := gD.uniform 0 10
    let (b2, gF) := gE.randint 0 5
    tickCore gF r1 (pyRound1 v1) b1 r2 (pyRound1 v2) b2 deterministic hist
  else
    tickCore g rain1 vib1 blast1 rain2 vib2 blast2 deterministic hist


/-- Dict lookup in a history record's per-bench score mapping: the value
stored under a bench id, `none` when the id is absent. -/
def lookupScore (bench_id : String) (scores : List (String × ℚ)) : Option ℚ :=
  (scores.find? (fun p => p.1 == bench_id)).map Prod.snd

/-- Modelled from the spec: the concrete delimited-text encoding of the
export is produced by the external `pandas.DataFrame.to_csv` library call
(`src/app.py` line 282-283), which is not part of this repository. Per
spec §6 the export serializes "the full HistoryBuffer (all retained
ticks, up to 200) as delimited tabular text with header row matching
HistoryRecord fields". The table is modelled at field granularity: a
header row naming the six reading fields followed by the per-bench score
columns. -/
def csvHeader (benchIds : List String) : List String :=
  ["rain1", "vib1", "blast1", "rain2", "vib2", "blast2"] ++ benchIds

/-- Modelled from the spec: one data row of the export — the six reading
fields of the record followed by, for each bench column, the score stored
under that bench id. -/
def recordToRow (benchIds : List String) (rec : HistoryRecord) : List ℚ :=
  [rec.rain1, rec.vib1, rec.blast1, rec.rain2, rec.vib2, rec.blast2]
    ++ benchIds.map (fun bid => (lookupScore bid rec.scores).getD 0)

/-- Modelled from the spec: `export_csv` (`src/app.py` lines 281-283)
serializes the full history buffer as a delimited table — the header row
plus one data row per retained tick, in buffer order. -/
def export_csv (hist : List HistoryRecord) (benchIds : List String) :
    List String × List (List ℚ) :=
  (csvHeader benchIds, hist.map (recordToRow benchIds))

/-- Modelled from the spec: re-parsing one data row of the exported table
back into a HistoryRecord — the first six cells are the reading fields,
the remaining cells pair up with the bench columns of the header. -/
def rowToRecord (benchIds : List String) (row : List ℚ) : HistoryRecord :=
  ⟨row.getD 0 0, row.getD 1 0, row.getD 2 0, row.getD 3 0, row.getD 4 0,
   row.getD 5 0, benchIds.zip (row.drop 6)⟩

/-- Modelled from the spec: re-parsing the whole exported table — the
bench columns are read off the header, every data row becomes a record. -/
def parseCsv (table : List String × List (List ℚ)) : List HistoryRecord :=
  table.2.map (rowToRecord (table.1.drop 6))

/-- A fixed concrete random-source state, used to instantiate theorems. -/
def rngZero : RNG := ⟨fun _ => 0, 0⟩

/-- The result row produced for one bench in deterministic (Manual) mode:
reading copied through, score `round(detScore, 1)`, classification of the
raw score. -/
def detRow (bench_id : String) (slope gr gv gb : ℚ) : RiskResult :=
  ⟨bench_id, slope, gr, gv, gb, pyRound1 (detScore gr gv gb slope),
   classify (detScore gr gv gb slope)⟩

/-- One geo layer as built in deterministic mode for a bench with centre
`c` and (already perturbed) slope. -/
def detLayer (bench_id : String) (c : ℚ × ℚ) (layer : ℕ) (gr gv gb slope : ℚ) :
    GeoLayer :=
  ⟨bench_id, layer, c, 30 * ((layer : ℚ) + 1),
   risk_color (classify (detScore gr gv gb slope)),
   classify (detScore gr gv gb slope), detScore gr gv gb slope⟩

/-- The three geo layers of one bench in deterministic mode: slopes
perturbed by 0, 2 and 4, radii 30, 60 and 90. -/
def detLayersOf (bench_id : String) (coords : List (ℚ × ℚ)) (slope gr gv gb : ℚ) :
    List GeoLayer :=
  [detLayer bench_id (centroid coords) 0 gr gv gb slope,
   detLayer bench_id (centroid coords) 1 gr gv gb (slope + 2),
   detLayer bench_id (centroid coords) 2 gr gv gb (slope + 4)]

/-- The history record appended by a deterministic (Manual) tick. -/
def detRecord (r1 v1 b1 r2 v2 b2 : ℚ) : HistoryRecord :=
  ⟨r1, v1, b1, r2, v2, b2,
   [("Bench 1", pyRound1 (detScore r1 v1 b1 35)),
    ("Bench 2", pyRound1 (detScore r1 v1 b1 50)),
    ("Bench 3", pyRound1 (detScore r2 v2 b2 45)),
    ("Bench 4", pyRound1 (detScore r2 v2 b2 60))]⟩

/-- The stored polygon of Bench 1. -/
def bench1coords : List (ℚ × ℚ) := (benches.get ⟨0, by decide⟩).coords

/-- The stored polygon of Bench 2. -/
def bench2coords : List (ℚ × ℚ) := (benches.get ⟨1, by decide⟩).coords

/-- The stored polygon of Bench 3. -/
def bench3coords : List (ℚ × ℚ) := (benches.get ⟨2, by decide⟩).coords

/-- The stored polygon of Bench 4. -/
def bench4coords : List (ℚ × ℚ) := (benches.get ⟨3, by decide⟩).coords

/-- A concrete result row (Bench 1 with the Group-1 default reading),
used to instantiate theorems. -/
def rowZero : RiskResult := ⟨"Bench 1", 35, 10, 1, 0, 26.5, .Low⟩

/-- A concrete history record, used to instantiate theorems. -/
def recZero : HistoryRecord := ⟨0, 0, 0, 0, 0, 0, []⟩

/-- A second concrete history record, used to instantiate theorems. -/
def recOne : HistoryRecord :=
  ⟨1, 2, 3, 4, 5, 6, [("Bench 1", 26.5), ("Bench 2", 34), ("Bench 3", 26.5),
                      ("Bench 4", 34)]⟩

/-! ## Helper lemmas -/

theorem compute_score_det_eq (g : RNG) (rain vib blast slope : ℚ) :
    compute_score g rain vib blast slope true =
      ((classify (detScore rain vib blast slope), detScore rain vib blast slope), g) := by
  simp [compute_score, detScore]

theorem update_manual_eq_tickCore (g : RNG) (r1 v1 b1 r2 v2 b2 : ℚ)
    (hist : List HistoryRecord) :
    update_dashboard g r1 v1 b1 r2 v2 b2 "Manual" hist =
      tickCore g r1 v1 b1 r2 v2 b2 true hist := by
  simp [update_dashboard]

theorem scoreGroup1_det (g : RNG) (gr gv gb : ℚ) :
    scoreGroup g ["Bench 1", "Bench 2"] gr gv gb true =
      some ([detRow "Bench 1" 35 gr gv gb, detRow "Bench 2" 50 gr gv gb], g) := by
  simp [scoreGroup, findBench, benches, compute_score_det_eq, detRow]

theorem scoreGroup2_det (g : RNG) (gr gv gb : ℚ) :
    scoreGroup g ["Bench 3", "Bench 4"] gr gv gb true =
      some ([detRow "Bench 3" 45 gr gv gb, detRow "Bench 4" 60 gr gv gb], g) := by
  simp [scoreGroup, findBench, benches, compute_score_det_eq, detRow]

theorem layersFor_det (g : RNG) (r : RiskResult) (bench : Bench)
    (hb : findBench r.bench = some bench) :
    layersFor g r true =
      some (detLayersOf r.bench bench.coords bench.slope
              r.rainfall r.vibration r.blast, g) := by
  norm_num [layersFor, hb, List.range_succ, compute_score_det_eq,
    detLayersOf, detLayer]

theorem findBench_b1 : findBench "Bench 1" = some ⟨"Bench 1", 35, bench1coords⟩ := by rfl

theorem findBench_b2 : findBench "Bench 2" = some ⟨"Bench 2", 50, bench2coords⟩ := by rfl

theorem findBench_b3 : findBench "Bench 3" = some ⟨"Bench 3", 45, bench3coords⟩ := by rfl

theorem findBench_b4 : findBench "Bench 4" = some ⟨"Bench 4", 60, bench4coords⟩ := by rfl

theorem layersFor_row1 (g : RNG) (gr gv gb : ℚ) :
    layersFor g (detRow "Bench 1" 35 gr gv gb) true =
      some (detLayersOf "Bench 1" bench1coords 35 gr gv gb, g) :=
  layersFor_det g _ _ findBench_b1

theorem layersFor_row2 (g : RNG) (gr gv gb : ℚ) :
    layersFor g (detRow "Bench 2" 50 gr gv gb) true =
      some (detLayersOf "Bench 2" bench2coords 50 gr gv gb, g) :=
  layersFor_det g _ _ findBench_b2

theorem layersFor_row3 (g : RNG) (gr gv gb : ℚ) :
    layersFor g (detRow "Bench 3" 45 gr gv gb) true =
      some (detLayersOf "Bench 3" bench3coords 45 gr gv gb, g) :=
  layersFor_det g _ _ findBench_b3

theorem layersFor_row4 (g : RNG) (gr gv gb : ℚ) :
    layersFor g (detRow "Bench 4" 60 gr gv gb) true =
      some (detLayersOf "Bench 4" bench4coords 60 gr gv gb, g) :=
  layersFor_det g _ _ findBench_b4

theorem tickCore_manual_eq (g : RNG) (r1 v1 b1 r2 v2 b2 : ℚ)
    (hist : List HistoryRecord) :
    tickCore g r1 v1 b1 r2 v2 b2 true hist =
      some ⟨[detRow "Bench 1" 35 r1 v1 b1, detRow "Bench 2" 50 r1 v1 b1,
             detRow "Bench 3" 45 r2 v2 b2, detRow "Bench 4" 60 r2 v2 b2],
            detRecord r1 v1 b1 r2 v2 b2,
            pushHistory hist (detRecord r1 v1 b1 r2 v2 b2),
            detLayersOf "Bench 1" bench1coords 35 r1 v1 b1 ++
            (detLayersOf "Bench 2" bench2coords 50 r1 v1 b1 ++
            (detLayersOf "Bench 3" bench3coords 45 r2 v2 b2 ++
            detLayersOf "Bench 4" bench4coords 60 r2 v2 b2)),
            g⟩ := by
  simp [tickCore, groups, scoreGroup1_det, scoreGroup2_det, buildGeoLayers,
    layersFor_row1, layersFor_row2, layersFor_row3, layersFor_row4]
  simp [detRow, detRecord]

theorem update_manual_eq (g : RNG) (r1 v1 b1 r2 v2 b2 : ℚ)
    (hist : List HistoryRecord) :
    update_dashboard g r1 v1 b1 r2 v2 b2 "Manual" hist =
      some ⟨[detRow "Bench 1" 35 r1 v1 b1, detRow "Bench 2" 50 r1 v1 b1,
             detRow "Bench 3" 45 r2 v2 b2, detRow "Bench 4" 60 r2 v2 b2],
            detRecord r1 v1 b1 r2 v2 b2,
            pushHistory hist (detRecord r1 v1 b1 r2 v2 b2),
            detLayersOf "Bench 1" bench1coords 35 r1 v1 b1 ++
            (detLayersOf "Bench 2" bench2coords 50 r1 v1 b1 ++
            (detLayersOf "Bench 3" bench3coords 45 r2 v2 b2 ++
            detLayersOf "Bench 4" bench4coords 60 r2 v2 b2)),
            g⟩ := by
  rw [update_manual_eq_tickCore, tickCore_manual_eq]

theorem tickCore_shape (g : RNG) (a b c d e f : ℚ) (det : Bool)
    (hist : List HistoryRecord) :
    (tickCore g a b c d e f det hist).map
        (fun o => (o.results.map RiskResult.bench, o.newHistory)) =
      (tickCore g a b c d e f det hist).map
        (fun o => (["Bench 1", "Bench 2", "Bench 3", "Bench 4"],
                   pushHistory hist o.record)) := by
  simp [tickCore, groups, scoreGroup, findBench, benches, buildGeoLayers,
    layersFor, List.range_succ, centroid]

theorem scoreGroup1_gen (g : RNG) (gr gv gb : ℚ) (det : Bool) :
    scoreGroup g ["Bench 1", "Bench 2"] gr gv gb det =
      (let c1 := compute_score g gr gv gb 35 det
       let c2 := compute_score c1.2 gr gv gb 50 det
       some ([⟨"Bench 1", 35, gr, gv, gb, pyRound1 (c1.1).2, (c1.1).1⟩,
              ⟨"Bench 2", 50, gr, gv, gb, pyRound1 (c2.1).2, (c2.1).1⟩],
             c2.2)) := by
  simp [scoreGroup, findBench, benches]

theorem scoreGroup2_gen (g : RNG) (gr gv gb : ℚ) (det : Bool) :
    scoreGroup g ["Bench 3", "Bench 4"] gr gv gb det =
      (let c3 := compute_score g gr gv gb 45 det
       let c4 := compute_score c3.2 gr gv gb 60 det
       some ([⟨"Bench 3", 45, gr, gv, gb, pyRound1 (c3.1).2, (c3.1).1⟩,
              ⟨"Bench 4", 60, gr, gv, gb, pyRound1 (c4.1).2, (c4.1).1⟩],
             c4.2)) := by
  simp [scoreGroup, findBench, benches]

theorem layersFor_gen (g : RNG) (r : RiskResult) (bench : Bench) (det : Bool)
    (hb : findBench r.bench = some bench) :
    layersFor g r det =
      (let c0 := compute_score g r.rainfall r.vibration r.blast
                   (bench.slope + ((0:ℕ) : ℚ) * 2) det
       let c1 := compute_score c0.2 r.rainfall r.vibration r.blast
                   (bench.slope + ((1:ℕ) : ℚ) * 2) det
       let c2 := compute_score c1.2 r.rainfall r.vibration r.blast
                   (bench.slope + ((2:ℕ) : ℚ) * 2) det
       some ([⟨r.bench, 0, centroid bench.coords, 30 * (((0:ℕ) : ℚ) + 1),
               risk_color (c0.1).1, (c0.1).1, (c0.1).2⟩,
              ⟨r.bench, 1, centroid bench.coords, 30 * (((1:ℕ) : ℚ) + 1),
               risk_color (c1.1).1, (c1.1).1, (c1.1).2⟩,
              ⟨r.bench, 2, centroid bench.coords, 30 * (((2:ℕ) : ℚ) + 1),
               risk_color (c2.1).1, (c2.1).1, (c2.1).2⟩],
             c2.2)) := by
  simp [layersFor, hb, List.range_succ]

theorem layersFor_bench1_gen (g : RNG) (sl rf rv rb sc : ℚ) (rk : Classification)
    (det : Bool) :
    layersFor g ⟨"Bench 1", sl, rf, rv, rb, sc, rk⟩ det =
      (let c0 := compute_score g rf rv rb (35 + ((0:ℕ) : ℚ) * 2) det
       let c1 := compute_score c0.2 rf rv rb (35 + ((1:ℕ) : ℚ) * 2) det
       let c2 := compute_score c1.2 rf rv rb (35 + ((2:ℕ) : ℚ) * 2) det
       some ([⟨"Bench 1", 0, centroid bench1coords, 30 * (((0:ℕ) : ℚ) + 1),
               risk_color (c0.1).1, (c0.1).1, (c0.1).2⟩,
              ⟨"Bench 1", 1, centroid bench1coords, 30 * (((1:ℕ) : ℚ) + 1),
               risk_color (c1.1).1, (c1.1).1, (c1.1).2⟩,
              ⟨"Bench 1", 2, centroid bench1coords, 30 * (((2:ℕ) : ℚ) + 1),
               risk_color (c2.1).1, (c2.1).1, (c2.1).2⟩],
             c2.2)) :=
  layersFor_gen g _ ⟨"Bench 1", 35, bench1coords⟩ det findBench_b1

theorem layersFor_bench2_gen (g : RNG) (sl rf rv rb sc : ℚ) (rk : Classification)
    (det : Bool) :
    layersFor g ⟨"Bench 2", sl, rf, rv, rb, sc, rk⟩ det =
      (let c0 := compute_score g rf rv rb (50 + ((0:ℕ) : ℚ) * 2) det
       let c1 := compute_score c0.2 rf rv rb (50 + ((1:ℕ) : ℚ) * 2) det
       let c2 := compute_score c1.2 rf rv rb (50 + ((2:ℕ) : ℚ) * 2) det
       some ([⟨"Bench 2", 0, centroid bench2coords, 30 * (((0:ℕ) : ℚ) + 1),
               risk_color (c0.1).1, (c0.1).1, (c0.1).2⟩,
              ⟨"Bench 2", 1, centroid bench2coords, 30 * (((1:ℕ) : ℚ) + 1),
               risk_color (c1.1).1, (c1.1).1, (c1.1).2⟩,
              ⟨"Bench 2", 2, centroid bench2coords, 30 * (((2:ℕ) : ℚ) + 1),
               risk_color (c2.1).1, (c2.1).1, (c2.1).2⟩],
             c2.2)) :=
  layersFor_gen g _ ⟨"Bench 2", 50, bench2coords⟩ det findBench_b2

theorem layersFor_bench3_gen (g : RNG) (sl rf rv rb sc : ℚ) (rk : Classification)
    (det : Bool) :
    layersFor g ⟨"Bench 3", sl, rf, rv, rb, sc, rk⟩ det =
      (let c0 := compute_score g rf rv rb (45 + ((0:ℕ) : ℚ) * 2) det
       let c1 := compute_score c0.2 rf rv rb (45 + ((1:ℕ) : ℚ) * 2) det
       let c2 := compute_score c1.2 rf rv rb (45 + ((2:ℕ) : ℚ) * 2) det
       some ([⟨"Bench 3", 0, centroid bench3coords, 30 * (((0:ℕ) : ℚ) + 1),
               risk_color (c0.1).1, (c0.1).1, (c0.1).2⟩,
              ⟨"Bench 3", 1, centroid bench3coords, 30 * (((1:ℕ) : ℚ) + 1),
               risk_color (c1.1).1, (c1.1).1, (c1.1).2⟩,
              ⟨"Bench 3", 2, centroid bench3coords, 30 * (((2:ℕ) : ℚ) + 1),
               risk_color (c2.1).1, (c2.1).1, (c2.1).2⟩],
             c2.2)) :=
  layersFor_gen g _ ⟨"Bench 3", 45, bench3coords⟩ det findBench_b3

theorem layersFor_bench4_gen (g : RNG) (sl rf rv rb sc : ℚ) (rk : Classification)
    (det : Bool) :
    layersFor g ⟨"Bench 4", sl, rf, rv, rb, sc, rk⟩ det =
      (let c0 := compute_score g rf rv rb (60 + ((0:ℕ) : ℚ) * 2) det
       let c1 := compute_score c0.2 rf rv rb (60 + ((1:ℕ) : ℚ) * 2) det
       let c2 := compute_score c1.2 rf rv rb (60 + ((2:ℕ) : ℚ) * 2) det
       some ([⟨"Bench 4", 0, centroid bench4coords, 30 * (((0:ℕ) : ℚ) + 1),
               risk_color (c0.1).1, (c0.1).1, (c0.1).2⟩,
              ⟨"Bench 4", 1, centroid bench4coords, 30 * (((1:ℕ) : ℚ) + 1),
               risk_color (c1.1).1, (c1.1).1, (c1.1).2⟩,
              ⟨"Bench 4", 2, centroid bench4coords, 30 * (((2:ℕ) : ℚ) + 1),
               risk_color (c2.1).1, (c2.1).1, (c2.1).2⟩],
             c2.2)) :=
  layersFor_gen g _ ⟨"Bench 4", 60, bench4coords⟩ det findBench_b4

theorem tickCore_gen (g : RNG) (a b c d e f : ℚ) (det : Bool)
    (hist : List HistoryRecord) :
    tickCore g a b c d e f det hist =
      (let c1 := compute_score g a b c 35 det
       let c2 := compute_score c1.2 a b c 50 det
       let c3 := compute_score c2.2 d e f 45 det
       let c4 := compute_score c3.2 d e f 60 det
       let rows : List RiskResult :=
         [⟨"Bench 1", 35, a, b, c, pyRound1 (c1.1).2, (c1.1).1⟩,
          ⟨"Bench 2", 50, a, b, c, pyRound1 (c2.1).2, (c2.1).1⟩,
          ⟨"Bench 3", 45, d, e, f, pyRound1 (c3.1).2, (c3.1).1⟩,
          ⟨"Bench 4", 60, d, e, f, pyRound1 (c4.1).2, (c4.1).1⟩]
       let record : HistoryRecord :=
         ⟨a, b, c, d, e, f,
          [("Bench 1", pyRound1 (c1.1).2), ("Bench 2", pyRound1 (c2.1).2),
           ("Bench 3", pyRound1 (c3.1).2), ("Bench 4", pyRound1 (c4.1).2)]⟩
       let l1 := compute_score c4.2 a b c (35 + ((0:ℕ) : ℚ) * 2) det
       let l2 := compute_score l1.2 a b c (35 + ((1:ℕ) : ℚ) * 2) det
       let l3 := compute_score l2.2 a b c (35 + ((2:ℕ) : ℚ) * 2) det
       let l4 := compute_score l3.2 a b c (50 + ((0:ℕ) : ℚ) * 2) det
       let l5 := compute_score l4.2 a b c (50 + ((1:ℕ) : ℚ) * 2) det
       let l6 := compute_score l5.2 a b c (50 + ((2:ℕ) : ℚ) * 2) det
       let l7 := compute_score l6.2 d e f (45 + ((0:ℕ) : ℚ) * 2) det
       let l8 := compute_score l7.2 d e f (45 + ((1:ℕ) : ℚ) * 2) det
       let l9 := compute_score l8.2 d e f (45 + ((2:ℕ) : ℚ) * 2) det
       let l10 := compute_score l9.2 d e f (60 + ((0:ℕ) : ℚ) * 2) det
       let l11 := compute_score l10.2 d e f (60 + ((1:ℕ) : ℚ) * 2) det
       let l12 := compute_score l11.2 d e f (60 + ((2:ℕ) : ℚ) * 2) det
       let layers : List GeoLayer :=
         [⟨"Bench 1", 0, centroid bench1coords, 30 * (((0:ℕ) : ℚ) + 1),
           risk_color (l1.1).1, (l1.1).1, (l1.1).2⟩,
          ⟨"Bench 1", 1, centroid bench1coords, 30 * (((1:ℕ) : ℚ) + 1),
           risk_color (l2.1).1, (l2.1).1, (l2.1).2⟩,
          ⟨"Bench 1", 2, centroid bench1coords, 30 * (((2:ℕ) : ℚ) + 1),
           risk_color (l3.1).1, (l3.1).1, (l3.1).2⟩,
          ⟨"Bench 2", 0, centroid bench2coords, 30 * (((0:ℕ) : ℚ) + 1),
           risk_color (l4.1).1, (l4.1).1, (l4.1).2⟩,
          ⟨"Bench 2", 1, centroid bench2coords, 30 * (((1:ℕ) : ℚ) + 1),
           risk_color (l5.1).1, (l5.1).1, (l5.1).2⟩,
          ⟨"Bench 2", 2, centroid bench2coords, 30 * (((2:ℕ) : ℚ) + 1),
           risk_color (l6.1).1, (l6.1).1, (l6.1).2⟩,
          ⟨"Bench 3", 0, centroid bench3coords, 30 * (((0:ℕ) : ℚ) + 1),
           risk_color (l7.1).1, (l7.1).1, (l7.1).2⟩,
          ⟨"Bench 3", 1, centroid bench3coords, 30 * (((1:ℕ) : ℚ) + 1),
           risk_color (l8.1).1, (l8.1).1, (l8.1).2⟩,
          ⟨"Bench 3", 2, centroid bench3coords, 30 * (((2:ℕ) : ℚ) + 1),
           risk_color (l9.1).1, (l9.1).1, (l9.1).2⟩,
          ⟨"Bench 4", 0, centroid bench4coords, 30 * (((0:ℕ) : ℚ) + 1),
           risk_color (l10.1).1, (l10.1).1, (l10.1).2⟩,
          ⟨"Bench 4", 1, centroid bench4coords, 30 * (((1:ℕ) : ℚ) + 1),
           risk_color (l11.1).1, (l11.1).1, (l11.1).2⟩,
          ⟨"Bench 4", 2, centroid bench4coords, 30 * (((2:ℕ) : ℚ) + 1),
           risk_color (l12.1).1, (l12.1).1, (l12.1).2⟩]
       some ⟨rows, record, pushHistory hist record, layers, l12.2⟩) := by
  simp [tickCore, groups, scoreGroup1_gen, scoreGroup2_gen, buildGeoLayers,
    layersFor_bench1_gen, layersFor_bench2_gen, layersFor_bench3_gen,
    layersFor_bench4_gen]

theorem update_auto_eq (g : RNG) (r1 v1 b1 r2 v2 b2 : ℚ)
    (hist : List HistoryRecord) :
    update_dashboard g r1 v1 b1 r2 v2 b2 "Auto" hist =
      (let d1 := g.randint 0 200
       let d2 := d1.2.uniform 0 10
       let d3 := d2.2.randint 0 5
       let d4 := d3.2.randint 0 200
       let d5 := d4.2.uniform 0 10
       let d6 := d5.2.randint 0 5
       tickCore d6.2 d1.1 (pyRound1 d2.1) d3.1 d4.1 (pyRound1 d5.1) d6.1
         false hist) := by
  simp [update_dashboard]

theorem tickCore_layer_shape (g : RNG) (a b c d e f : ℚ) (det : Bool)
    (hist : List HistoryRecord) :
    (tickCore g a b c d e f det hist).map
        (fun o => o.layers.map (fun L => (L.benchId, L.layerIndex, L.center, L.radius))) =
      some [("Bench 1", 0, centroid bench1coords, 30 * (((0:ℕ) : ℚ) + 1)),
            ("Bench 1", 1, centroid bench1coords, 30 * (((1:ℕ) : ℚ) + 1)),
            ("Bench 1", 2, centroid bench1coords, 30 * (((2:ℕ) : ℚ) + 1)),
            ("Bench 2", 0, centroid bench2coords, 30 * (((0:ℕ) : ℚ) + 1)),
            ("Bench 2", 1, centroid bench2coords, 30 * (((1:ℕ) : ℚ) + 1)),
            ("Bench 2", 2, centroid bench2coords, 30 * (((2:ℕ) : ℚ) + 1)),
            ("Bench 3", 0, centroid bench3coords, 30 * (((0:ℕ) : ℚ) + 1)),
            ("Bench 3", 1, centroid bench3coords, 30 * (((1:ℕ) : ℚ) + 1)),
            ("Bench 3", 2, centroid bench3coords, 30 * (((2:ℕ) : ℚ) + 1)),
            ("Bench 4", 0, centroid bench4coords, 30 * (((0:ℕ) : ℚ) + 1)),
            ("Bench 4", 1, centroid bench4coords, 30 * (((1:ℕ) : ℚ) + 1)),
            ("Bench 4", 2, centroid bench4coords, 30 * (((2:ℕ) : ℚ) + 1))] := by
  rw [tickCore_gen]
  rfl

theorem tickCore_rows_readings (g : RNG) (a b c d e f : ℚ) (det : Bool)
    (hist : List HistoryRecord) :
    (tickCore g a b c d e f det hist).map
        (fun o => o.results.map
          (fun r => (r.bench, r.slope, r.rainfall, r.vibration, r.blast))) =
      (tickCore g a b c d e f det hist).map
        (fun o => [("Bench 1", (35:ℚ), o.record.rain1, o.record.vib1, o.record.blast1),
                   ("Bench 2", (50:ℚ), o.record.rain1, o.record.vib1, o.record.blast1),
                   ("Bench 3", (45:ℚ), o.record.rain2, o.record.vib2, o.record.blast2),
                   ("Bench 4", (60:ℚ), o.record.rain2, o.record.vib2, o.record.blast2)]) := by
  rw [tickCore_gen]
  rfl

theorem tickCore_record_scores (g : RNG) (a b c d e f : ℚ) (det : Bool)
    (hist : List HistoryRecord) :
    (tickCore g a b c d e f det hist).map (fun o => o.record.scores) =
      (tickCore g a b c d e f det hist).map
        (fun o => o.results.map (fun r => (r.bench, r.score))) := by
  rw [tickCore_gen]
  rfl

theorem update_layer_shape (g : RNG) (r1 v1 b1 r2 v2 b2 : ℚ) (mode : String)
    (hist : List HistoryRecord) :
    (update_dashboard g r1 v1 b1 r2 v2 b2 mode hist).map
        (fun o => o.layers.map (fun L => (L.benchId, L.layerIndex, L.center, L.radius))) =
      some [("Bench 1", 0, centroid bench1coords, 30 * (((0:ℕ) : ℚ) + 1)),
            ("Bench 1", 1, centroid bench1coords, 30 * (((1:ℕ) : ℚ) + 1)),
            ("Bench 1", 2, centroid bench1coords, 30 * (((2:ℕ) : ℚ) + 1)),
            ("Bench 2", 0, centroid bench2coords, 30 * (((0:ℕ) : ℚ) + 1)),
            ("Bench 2", 1, centroid bench2coords, 30 * (((1:ℕ) : ℚ) + 1)),
            ("Bench 2", 2, centroid bench2coords, 30 * (((2:ℕ) : ℚ) + 1)),
            ("Bench 3", 0, centroid bench3coords, 30 * (((0:ℕ) : ℚ) + 1)),
            ("Bench 3", 1, centroid bench3coords, 30 * (((1:ℕ) : ℚ) + 1)),
            ("Bench 3", 2, centroid bench3coords, 30 * (((2:ℕ) : ℚ) + 1)),
            ("Bench 4", 0, centroid bench4coords, 30 * (((0:ℕ) : ℚ) + 1)),
            ("Bench 4", 1, centroid bench4coords, 30 * (((1:ℕ) : ℚ) + 1)),
            ("Bench 4", 2, centroid bench4coords, 30 * (((2:ℕ) : ℚ) + 1))] := by
  by_cases hm : mode = "Auto"
  · subst hm
    rw [update_auto_eq]
    exact tickCore_layer_shape _ _ _ _ _ _ _ _ _
  · simp only [update_dashboard, if_neg hm]
    exact tickCore_layer_shape _ _ _ _ _ _ _ _ _

/-! ## Claim theorems -/

/-- C1: with `deterministic=true` the scorer returns exactly
`slope/2 + rain*0.4 + (vib + blast*2.0)*5 + blast*3` (multiplier fixed at
2.0, noise 0); with `deterministic=false` the same formula holds with the
multiplier the affine image of a unit draw in [1.5, 3.0] and the noise
the affine image of the next unit draw in [-5, 5]. -/
theorem C1_scorer_formula :
    (∀ (g : RNG) (rain vib blast slope : ℚ),
       ((compute_score g rain vib blast slope true).1).2 =
         slope / 2 + rain * 0.4 + (vib + blast * 2.0) * 5 + blast * 3) ∧
    (∀ (g : RNG) (rain vib blast slope : ℚ),
       0 ≤ g.seq g.pos → g.seq g.pos ≤ 1 →
       0 ≤ g.seq (g.pos + 1) → g.seq (g.pos + 1) ≤ 1 →
       ∃ mult noise : ℚ,
         mult = 1.5 + (3.0 - 1.5) * g.seq g.pos ∧
         noise = -5 + (5 - -5) * g.seq (g.pos + 1) ∧
         1.5 ≤ mult ∧ mult ≤ 3.0 ∧ -5 ≤ noise ∧ noise ≤ 5 ∧
         ((compute_score g rain vib blast slope false).1).2 =
           slope / 2 + rain * 0.4 + (vib + blast * mult) * 5 + blast * 3 + noise) := by
  constructor
  · intro g rain vib blast slope
    simp [compute_score]
  · intro g rain vib blast slope h0 h1 h2 h3
    refine ⟨_, _, rfl, rfl, ?_, ?_, ?_, ?_, ?_⟩
    · nlinarith
    · nlinarith
    · nlinarith
    · nlinarith
    · simp [compute_score, RNG.uniform]

/-- Witness for C1 at the concrete random source `rngZero` and reading
`(rain, vib, blast, slope) = (1, 2, 3, 4)`. -/
theorem C1_scorer_formula_witness :
    (0 ≤ rngZero.seq rngZero.pos ∧ rngZero.seq rngZero.pos ≤ 1 ∧
     0 ≤ rngZero.seq (rngZero.pos + 1) ∧ rngZero.seq (rngZero.pos + 1) ≤ 1) ∧
    (∃ mult noise : ℚ,
       mult = 1.5 + (3.0 - 1.5) * rngZero.seq rngZero.pos ∧
       noise = -5 + (5 - -5) * rngZero.seq (rngZero.pos + 1) ∧
       1.5 ≤ mult ∧ mult ≤ 3.0 ∧ -5 ≤ noise ∧ noise ≤ 5 ∧
       ((compute_score rngZero 1 2 3 4 false).1).2 =
         4 / 2 + 1 * 0.4 + (2 + 3 * mult) * 5 + 3 * 3 + noise) :=
  ⟨⟨by norm_num [rngZero], by norm_num [rngZero], by norm_num [rngZero],
    by norm_num [rngZero]⟩,
   C1_scorer_formula.2 rngZero 1 2 3 4 (by norm_num [rngZero])
     (by norm_num [rngZero]) (by norm_num [rngZero]) (by norm_num [rngZero])⟩

/-- C2: the classification is exactly Low below 40, Medium on [40, 70),
High from 70 on; the three ranges cover every score and exclude each
other; the boundary scores 40 and 70 classify Medium and High; and the
classification the scorer returns is always `classify` of the score it
returns. -/
theorem C2_classification_thresholds :
    (∀ s : ℚ, s < 40 → classify s = .Low) ∧
    (∀ s : ℚ, 40 ≤ s → s < 70 → classify s = .Medium) ∧
    (∀ s : ℚ, 70 ≤ s → classify s = .High) ∧
    (∀ s : ℚ, (s < 40 ∧ ¬(40 ≤ s ∧ s < 70) ∧ ¬70 ≤ s) ∨
              (¬s < 40 ∧ (40 ≤ s ∧ s < 70) ∧ ¬70 ≤ s) ∨
              (¬s < 40 ∧ ¬(40 ≤ s ∧ s < 70) ∧ 70 ≤ s)) ∧
    classify 40 = .Medium ∧
    classify 70 = .High ∧
    (∀ (g : RNG) (rain vib blast slope : ℚ) (d : Bool),
       ((compute_score g rain vib blast slope d).1).1 =
         classify ((compute_score g rain vib blast slope d).1).2) := by
  refine ⟨?_, ?_, ?_, ?_, ?_, ?_, ?_⟩
  · intro s hs; simp [classify, hs]
  · intro s h1 h2; simp [classify, not_lt.2 h1, h2]
  · intro s h
    have h40 : ¬s < 40 := by linarith
    have h70 : ¬s < 70 := by linarith
    simp [classify, h40, h70]
  · intro s
    rcases lt_or_le s 40 with h | h
    · exact Or.inl ⟨h, fun hc => absurd h (not_lt.2 hc.1),
        fun hc => absurd h (not_lt.2 (by linarith))⟩
    · rcases lt_or_le s 70 with h2 | h2
      · exact Or.inr (Or.inl ⟨not_lt.2 h, ⟨h, h2⟩, not_le.2 h2⟩)
      · exact Or.inr (Or.inr ⟨not_lt.2 h,
          fun hc => absurd hc.2 (not_lt.2 h2), h2⟩)
  · norm_num [classify]
  · norm_num [classify]
  · intro g rain vib blast slope d; rfl

/-- Witness for C2 at the boundary scores 40 and 70 and at 39. -/
theorem C2_classification_thresholds_witness :
    ((40:ℚ) ≤ 40 ∧ (40:ℚ) < 70 ∧ classify 40 = .Medium) ∧
    ((70:ℚ) ≤ 70 ∧ classify 70 = .High) ∧
    ((39:ℚ) < 40 ∧ classify 39 = .Low) :=
  ⟨⟨le_refl _, by norm_num,
    C2_classification_thresholds.2.1 40 (le_refl _) (by norm_num)⟩,
   ⟨le_refl _, C2_classification_thresholds.2.2.1 70 (le_refl _)⟩,
   ⟨by norm_num, C2_classification_thresholds.1 39 (by norm_num)⟩⟩

theorem tickCore_newHistory (g : RNG) (a b c d e f : ℚ) (det : Bool)
    (hist : List HistoryRecord) :
    (tickCore g a b c d e f det hist).map (fun o => o.newHistory) =
      (tickCore g a b c d e f det hist).map
        (fun o => pushHistory hist o.record) := by
  have h := congrArg (Option.map Prod.snd) (tickCore_shape g a b c d e f det hist)
  simpa [Option.map_map, Function.comp] using h

/-- C3: the deterministic scorer is a pure function of its numeric
arguments — its result does not depend on the random-source state, the
random-source state is returned unchanged (zero draws) — and a whole
Manual-mode tick leaves the shared random source exactly as it was. -/
theorem C3_manual_purity :
    (∀ (g g2 : RNG) (rain vib blast slope : ℚ),
       (compute_score g rain vib blast slope true).1 =
         (compute_score g2 rain vib blast slope true).1) ∧
    (∀ (g : RNG) (rain vib blast slope : ℚ),
       (compute_score g rain vib blast slope true).2 = g) ∧
    (∀ (g : RNG) (r1 v1 b1 r2 v2 b2 : ℚ) (hist : List HistoryRecord),
       (update_dashboard g r1 v1 b1 r2 v2 b2 "Manual" hist).map TickOut.rng =
         some g) := by
  refine ⟨?_, ?_, ?_⟩
  · intro g g2 rain vib blast slope
    rw [compute_score_det_eq, compute_score_det_eq]
  · intro g rain vib blast slope
    rw [compute_score_det_eq]
  · intro g r1 v1 b1 r2 v2 b2 hist
    rw [update_manual_eq]
    rfl

/-- C4: append-and-trim keeps the history buffer at no more than 200
records whenever it had no more than 200 before; appending to a buffer of
exactly 200 records evicts exactly the oldest record, leaving records
2..201 in their original order followed by the new one; and every
evaluation-cycle invocation (any mode) updates the buffer exactly by this
append-and-trim of the one new record. -/
theorem C4_history_cap :
    (∀ (hist : List HistoryRecord) (record : HistoryRecord),
       hist.length ≤ 200 → (pushHistory hist record).length ≤ 200) ∧
    (∀ (hist : List HistoryRecord) (record : HistoryRecord),
       hist.length = 200 →
       pushHistory hist record = hist.drop 1 ++ [record]) ∧
    (∀ (g : RNG) (r1 v1 b1 r2 v2 b2 : ℚ) (mode : String)
       (hist : List HistoryRecord),
       (update_dashboard g r1 v1 b1 r2 v2 b2 mode hist).map
           (fun o => o.newHistory) =
         (update_dashboard g r1 v1 b1 r2 v2 b2 mode hist).map
           (fun o => pushHistory hist o.record)) := by
  refine ⟨?_, ?_, ?_⟩
  · intro hist record h
    simp only [pushHistory]
    split
    · simp
      omega
    · next hh =>
      simp only [List.length_append, List.length_cons, List.length_nil] at hh ⊢
      omega
  · intro hist record h
    simp only [pushHistory]
    rw [if_pos (by simp [h])]
    exact List.drop_append_of_le_length (by omega)
  · intro g r1 v1 b1 r2 v2 b2 mode hist
    by_cases hm : mode = "Auto"
    · subst hm
      simp only [update_dashboard, if_pos rfl]
      exact tickCore_newHistory _ _ _ _ _ _ _ _ _
    · simp only [update_dashboard, if_neg hm]
      exact tickCore_newHistory _ _ _ _ _ _ _ _ _

/-- Witness for C4: a buffer of exactly 200 records evicts its oldest on
append, and the bound is preserved starting from the empty buffer. -/
theorem C4_history_cap_witness :
    ((List.replicate 200 recZero).length = 200 ∧
     pushHistory (List.replicate 200 recZero) recOne =
       (List.replicate 200 recZero).drop 1 ++ [recOne]) ∧
    (([] : List HistoryRecord).length ≤ 200 ∧
     (pushHistory [] recZero).length ≤ 200) :=
  ⟨⟨by rw [List.length_replicate],
    C4_history_cap.2.1 _ _ (by rw [List.length_replicate])⟩,
   ⟨by simp, C4_history_cap.1 [] recZero (by simp)⟩⟩

/-- C5: in Manual mode with Group-1 reading (10, 1, 0) and Group-2
reading (200, 10, 5), Bench 1 (slope 35) scores 26.5 → Low and Bench 4
(slope 60) scores 225 → High. -/
theorem C5_examples :
    (update_dashboard rngZero 10 1 0 200 10 5 "Manual" []).map
        (fun o => ((o.results[0]?).map (fun r => (r.bench, r.slope, r.score, r.risk)),
                   (o.results[3]?).map (fun r => (r.bench, r.slope, r.score, r.risk)))) =
      some (some ("Bench 1", 35, (26.5 : ℚ), Classification.Low),
            some ("Bench 4", 60, (225 : ℚ), Classification.High)) := by
  rw [update_manual_eq]
  norm_num [detRow, detScore, pyRound1, halfEven, classify]

/-- C6: for every bench and layer index 0..2, the geo-layer builder
renders a circle of radius `30*(layerIndex+1)` centred at the arithmetic
mean of the bench polygon's stored vertex coordinates, whose
classification and score are the scorer re-invoked on the bench's
original reading with slope perturbed by `+2*layerIndex` under the same
deterministic flag: stated per layer in deterministic mode; in full for
an arbitrary flag with the shared random source threaded through the
three re-invocations; for a tick in any mode (fixed ids, indices,
centres and radii of the twelve layers); for the cycle body under an
arbitrary flag (complete layer list); and for Auto ticks via their
unfolding to the cycle body with `deterministic = false` on the drawn
readings. The Manual tick's layer list is the concatenation of the four
benches' layer triples. -/
theorem C6_geo_layers :
    (∀ (g : RNG) (r : RiskResult) (bench : Bench),
       findBench r.bench = some bench →
       ∀ k : ℕ, k < 3 →
       (layersFor g r true).map (fun p => p.1[k]?) =
         some (some ⟨r.bench, k, centroid bench.coords, 30 * ((k : ℚ) + 1),
                     risk_color ((compute_score g r.rainfall r.vibration r.blast
                         (bench.slope + (k : ℚ) * 2) true).1).1,
                     ((compute_score g r.rainfall r.vibration r.blast
                         (bench.slope + (k : ℚ) * 2) true).1).1,
                     ((compute_score g r.rainfall r.vibration r.blast
                         (bench.slope + (k : ℚ) * 2) true).1).2⟩)) ∧
    (∀ (g : RNG) (r1 v1 b1 r2 v2 b2 : ℚ) (hist : List HistoryRecord),
       (update_dashboard g r1 v1 b1 r2 v2 b2 "Manual" hist).map TickOut.layers =
         some (detLayersOf "Bench 1" bench1coords 35 r1 v1 b1 ++
               (detLayersOf "Bench 2" bench2coords 50 r1 v1 b1 ++
               (detLayersOf "Bench 3" bench3coords 45 r2 v2 b2 ++
               detLayersOf "Bench 4" bench4coords 60 r2 v2 b2)))) ∧
    (∀ (g : RNG) (r : RiskResult) (bench : Bench) (det : Bool),
       findBench r.bench = some bench →
       layersFor g r det =
         (let c0 := compute_score g r.rainfall r.vibration r.blast
                      (bench.slope + ((0:ℕ) : ℚ) * 2) det
          let c1 := compute_score c0.2 r.rainfall r.vibration r.blast
                      (bench.slope + ((1:ℕ) : ℚ) * 2) det
          let c2 := compute_score c1.2 r.rainfall r.vibration r.blast
                      (bench.slope + ((2:ℕ) : ℚ) * 2) det
          some ([⟨r.bench, 0, centroid bench.coords, 30 * (((0:ℕ) : ℚ) + 1),
                  risk_color (c0.1).1, (c0.1).1, (c0.1).2⟩,
                 ⟨r.bench, 1, centroid bench.coords, 30 * (((1:ℕ) : ℚ) + 1),
                  risk_color (c1.1).1, (c1.1).1, (c1.1).2⟩,
                 ⟨r.bench, 2, centroid bench.coords, 30 * (((2:ℕ) : ℚ) + 1),
                  risk_color (c2.1).1, (c2.1).1, (c2.1).2⟩],
                c2.2))) ∧
    (∀ (g : RNG) (r1 v1 b1 r2 v2 b2 : ℚ) (mode : String)
       (hist : List HistoryRecord),
       (update_dashboard g r1 v1 b1 r2 v2 b2 mode hist).map
           (fun o => o.layers.map
             (fun L => (L.benchId, L.layerIndex, L.center, L.radius))) =
         some [("Bench 1", 0, centroid bench1coords, 30 * (((0:ℕ) : ℚ) + 1)),
               ("Bench 1", 1, centroid bench1coords, 30 * (((1:ℕ) : ℚ) + 1)),
               ("Bench 1", 2, centroid bench1coords, 30 * (((2:ℕ) : ℚ) + 1)),
               ("Bench 2", 0, centroid bench2coords, 30 * (((0:ℕ) : ℚ) + 1)),
               ("Bench 2", 1, centroid bench2coords, 30 * (((1:ℕ) : ℚ) + 1)),
               ("Bench 2", 2, centroid bench2coords, 30 * (((2:ℕ) : ℚ) + 1)),
               ("Bench 3", 0, centroid bench3coords, 30 * (((0:ℕ) : ℚ) + 1)),
               ("Bench 3", 1, centroid bench3coords, 30 * (((1:ℕ) : ℚ) + 1)),
               ("Bench 3", 2, centroid bench3coords, 30 * (((2:ℕ) : ℚ) + 1)),
               ("Bench 4", 0, centroid bench4coords, 30 * (((0:ℕ) : ℚ) + 1)),
               ("Bench 4", 1, centroid bench4coords, 30 * (((1:ℕ) : ℚ) + 1)),
               ("Bench 4", 2, centroid bench4coords, 30 * (((2:ℕ) : ℚ) + 1))]) ∧
    (∀ (g : RNG) (a b c d e f : ℚ) (det : Bool) (hist : List HistoryRecord),
       (tickCore g a b c d e f det hist).map TickOut.layers =
         (let c1 := compute_score g a b c 35 det
          let c2 := compute_score c1.2 a b c 50 det
          let c3 := compute_score c2.2 d e f 45 det
          let c4 := compute_score c3.2 d e f 60 det
          let l1 := compute_score c4.2 a b c (35 + ((0:ℕ) : ℚ) * 2) det
          let l2 := compute_score l1.2 a b c (35 + ((1:ℕ) : ℚ) * 2) det
          let l3 := compute_score l2.2 a b c (35 + ((2:ℕ) : ℚ) * 2) det
          let l4 := compute_score l3.2 a b c (50 + ((0:ℕ) : ℚ) * 2) det
          let l5 := compute_score l4.2 a b c (50 + ((1:ℕ) : ℚ) * 2) det
          let l6 := compute_score l5.2 a b c (50 + ((2:ℕ) : ℚ) * 2) det
          let l7 := compute_score l6.2 d e f (45 + ((0:ℕ) : ℚ) * 2) det
          let l8 := compute_score l7.2 d e f (45 + ((1:ℕ) : ℚ) * 2) det
          let l9 := compute_score l8.2 d e f (45 + ((2:ℕ) : ℚ) * 2) det
          let l10 := compute_score l9.2 d e f (60 + ((0:ℕ) : ℚ) * 2) det
          let l11 := compute_score l10.2 d e f (60 + ((1:ℕ) : ℚ) * 2) det
          let l12 := compute_score l11.2 d e f (60 + ((2:ℕ) : ℚ) * 2) det
          some [⟨"Bench 1", 0, centroid bench1coords, 30 * (((0:ℕ) : ℚ) + 1),
                 risk_color (l1.1).1, (l1.1).1, (l1.1).2⟩,
                ⟨"Bench 1", 1, centroid bench1coords, 30 * (((1:ℕ) : ℚ) + 1),
                 risk_color (l2.1).1, (l2.1).1, (l2.1).2⟩,
                ⟨"Bench 1", 2, centroid bench1coords, 30 * (((2:ℕ) : ℚ) + 1),
                 risk_color (l3.1).1, (l3.1).1, (l3.1).2⟩,
                ⟨"Bench 2", 0, centroid bench2coords, 30 * (((0:ℕ) : ℚ) + 1),
                 risk_color (l4.1).1, (l4.1).1, (l4.1).2⟩,
                ⟨"Bench 2", 1, centroid bench2coords, 30 * (((1:ℕ) : ℚ) + 1),
                 risk_color (l5.1).1, (l5.1).1, (l5.1).2⟩,
                ⟨"Bench 2", 2, centroid bench2coords, 30 * (((2:ℕ) : ℚ) + 1),
                 risk_color (l6.1).1, (l6.1).1, (l6.1).2⟩,
                ⟨"Bench 3", 0, centroid bench3coords, 30 * (((0:ℕ) : ℚ) + 1),
                 risk_color (l7.1).1, (l7.1).1, (l7.1).2⟩,
                ⟨"Bench 3", 1, centroid bench3coords, 30 * (((1:ℕ) : ℚ) + 1),
                 risk_color (l8.1).1, (l8.1).1, (l8.1).2⟩,
                ⟨"Bench 3", 2, centroid bench3coords, 30 * (((2:ℕ) : ℚ) + 1),
                 risk_color (l9.1).1, (l9.1).1, (l9.1).2⟩,
                ⟨"Bench 4", 0, centroid bench4coords, 30 * (((0:ℕ) : ℚ) + 1),
                 risk_color (l10.1).1, (l10.1).1, (l10.1).2⟩,
                ⟨"Bench 4", 1, centroid bench4coords, 30 * (((1:ℕ) : ℚ) + 1),
                 risk_color (l11.1).1, (l11.1).1, (l11.1).2⟩,
                ⟨"Bench 4", 2, centroid bench4coords, 30 * (((2:ℕ) : ℚ) + 1),
                 risk_color (l12.1).1, (l12.1).1, (l12.1).2⟩])) ∧
    (∀ (g : RNG) (r1 v1 b1 r2 v2 b2 : ℚ) (hist : List HistoryRecord),
       update_dashboard g r1 v1 b1 r2 v2 b2 "Auto" hist =
         (let d1 := g.randint 0 200
          let d2 := d1.2.uniform 0 10
          let d3 := d2.2.randint 0 5
          let d4 := d3.2.randint 0 200
          let d5 := d4.2.uniform 0 10
          let d6 := d5.2.randint 0 5
          tickCore d6.2 d1.1 (pyRound1 d2.1) d3.1 d4.1 (pyRound1 d5.1) d6.1
            false hist)) := by
  refine ⟨?_, ?_, ?_, ?_, ?_, ?_⟩
  · intro g r bench hb k hk
    rw [layersFor_det g r bench hb]
    interval_cases k <;>
      norm_num [detLayersOf, detLayer, compute_score_det_eq]
  · intro g r1 v1 b1 r2 v2 b2 hist
    rw [update_manual_eq]
    rfl
  · intro g r bench det hb
    exact layersFor_gen g r bench det hb
  · intro g r1 v1 b1 r2 v2 b2 mode hist
    exact update_layer_shape g r1 v1 b1 r2 v2 b2 mode hist
  · intro g a b c d e f det hist
    rw [tickCore_gen]
    rfl
  · intro g r1 v1 b1 r2 v2 b2 hist
    exact update_auto_eq g r1 v1 b1 r2 v2 b2 hist

/-- Witness for C6 at Bench 1's result row: layer index 1 in
deterministic mode, and the full layer triple under the stochastic
flag. -/
theorem C6_geo_layers_witness :
    (findBench rowZero.bench = some ⟨"Bench 1", 35, bench1coords⟩ ∧ (1:ℕ) < 3) ∧
    (layersFor rngZero rowZero true).map (fun p => p.1[1]?) =
      some (some ⟨rowZero.bench, 1, centroid bench1coords, 30 * (((1:ℕ) : ℚ) + 1),
                  risk_color ((compute_score rngZero rowZero.rainfall rowZero.vibration
                      rowZero.blast (35 + ((1:ℕ) : ℚ) * 2) true).1).1,
                  ((compute_score rngZero rowZero.rainfall rowZero.vibration
                      rowZero.blast (35 + ((1:ℕ) : ℚ) * 2) true).1).1,
                  ((compute_score rngZero rowZero.rainfall rowZero.vibration
                      rowZero.blast (35 + ((1:ℕ) : ℚ) * 2) true).1).2⟩) ∧
    (layersFor rngZero rowZero false =
      (let c0 := compute_score rngZero rowZero.rainfall rowZero.vibration
                   rowZero.blast (35 + ((0:ℕ) : ℚ) * 2) false
       let c1 := compute_score c0.2 rowZero.rainfall rowZero.vibration
                   rowZero.blast (35 + ((1:ℕ) : ℚ) * 2) false
       let c2 := compute_score c1.2 rowZero.rainfall rowZero.vibration
                   rowZero.blast (35 + ((2:ℕ) : ℚ) * 2) false
       some ([⟨rowZero.bench, 0, centroid bench1coords, 30 * (((0:ℕ) : ℚ) + 1),
               risk_color (c0.1).1, (c0.1).1, (c0.1).2⟩,
              ⟨rowZero.bench, 1, centroid bench1coords, 30 * (((1:ℕ) : ℚ) + 1),
               risk_color (c1.1).1, (c1.1).1, (c1.1).2⟩,
              ⟨rowZero.bench, 2, centroid bench1coords, 30 * (((2:ℕ) : ℚ) + 1),
               risk_color (c2.1).1, (c2.1).1, (c2.1).2⟩],
             c2.2))) :=
  ⟨⟨rfl, by norm_num⟩,
   C6_geo_layers.1 rngZero rowZero ⟨"Bench 1", 35, bench1coords⟩ rfl 1 (by norm_num),
   C6_geo_layers.2.2.1 rngZero rowZero ⟨"Bench 1", 35, bench1coords⟩ false rfl⟩

/-- C7: every evaluation-cycle invocation produces exactly one result row
per bench, ordered by group then bench (Bench 1, 2, 3, 4), each scored by
invoking the scorer with its group's reading and the bench's own slope
under the invocation's flag, and appends exactly one record to the
history buffer: proven in closed form for Manual ticks; for the cycle
body under an arbitrary flag and arbitrary readings with the threaded
scorer calls explicit; for every mode via the rows' reading/slope
provenance against the appended record and the bench order plus single
append; and for Auto ticks via their unfolding to the cycle body on the
freshly drawn readings. -/
theorem C7_cycle_results :
    (∀ (g : RNG) (r1 v1 b1 r2 v2 b2 : ℚ) (hist : List HistoryRecord),
       (update_dashboard g r1 v1 b1 r2 v2 b2 "Manual" hist).map
           (fun o => (o.results, o.record, o.newHistory)) =
         some ([detRow "Bench 1" 35 r1 v1 b1, detRow "Bench 2" 50 r1 v1 b1,
                detRow "Bench 3" 45 r2 v2 b2, detRow "Bench 4" 60 r2 v2 b2],
               detRecord r1 v1 b1 r2 v2 b2,
               pushHistory hist (detRecord r1 v1 b1 r2 v2 b2))) ∧
    (∀ (g : RNG) (r1 v1 b1 r2 v2 b2 : ℚ) (mode : String)
       (hist : List HistoryRecord),
       (update_dashboard g r1 v1 b1 r2 v2 b2 mode hist).map
           (fun o => (o.results.map RiskResult.bench, o.newHistory)) =
         (update_dashboard g r1 v1 b1 r2 v2 b2 mode hist).map
           (fun o => (["Bench 1", "Bench 2", "Bench 3", "Bench 4"],
                      pushHistory hist o.record))) ∧
    (∀ (g : RNG) (a b c d e f : ℚ) (det : Bool) (hist : List HistoryRecord),
       (tickCore g a b c d e f det hist).map (fun o => (o.results, o.record)) =
         (let c1 := compute_score g a b c 35 det
          let c2 := compute_score c1.2 a b c 50 det
          let c3 := compute_score c2.2 d e f 45 det
          let c4 := compute_score c3.2 d e f 60 det
          some ([⟨"Bench 1", 35, a, b, c, pyRound1 (c1.1).2, (c1.1).1⟩,
                 ⟨"Bench 2", 50, a, b, c, pyRound1 (c2.1).2, (c2.1).1⟩,
                 ⟨"Bench 3", 45, d, e, f, pyRound1 (c3.1).2, (c3.1).1⟩,
                 ⟨"Bench 4", 60, d, e, f, pyRound1 (c4.1).2, (c4.1).1⟩],
                ⟨a, b, c, d, e, f,
                 [("Bench 1", pyRound1 (c1.1).2), ("Bench 2", pyRound1 (c2.1).2),
                  ("Bench 3", pyRound1 (c3.1).2), ("Bench 4", pyRound1 (c4.1).2)]⟩))) ∧
    (∀ (g : RNG) (r1 v1 b1 r2 v2 b2 : ℚ) (mode : String)
       (hist : List HistoryRecord),
       (update_dashboard g r1 v1 b1 r2 v2 b2 mode hist).map
           (fun o => o.results.map
             (fun r => (r.bench, r.slope, r.rainfall, r.vibration, r.blast))) =
         (update_dashboard g r1 v1 b1 r2 v2 b2 mode hist).map
           (fun o => [("Bench 1", (35:ℚ), o.record.rain1, o.record.vib1, o.record.blast1),
                      ("Bench 2", (50:ℚ), o.record.rain1, o.record.vib1, o.record.blast1),
                      ("Bench 3", (45:ℚ), o.record.rain2, o.record.vib2, o.record.blast2),
                      ("Bench 4", (60:ℚ), o.record.rain2, o.record.vib2, o.record.blast2)])) ∧
    (∀ (g : RNG) (r1 v1 b1 r2 v2 b2 : ℚ) (hist : List HistoryRecord),
       update_dashboard g r1 v1 b1 r2 v2 b2 "Auto" hist =
         (let d1 := g.randint 0 200
          let d2 := d1.2.uniform 0 10
          let d3 := d2.2.randint 0 5
          let d4 := d3.2.randint 0 200
          let d5 := d4.2.uniform 0 10
          let d6 := d5.2.randint 0 5
          tickCore d6.2 d1.1 (pyRound1 d2.1) d3.1 d4.1 (pyRound1 d5.1) d6.1
            false hist)) := by
  refine ⟨?_, ?_, ?_, ?_, ?_⟩
  · intro g r1 v1 b1 r2 v2 b2 hist
    rw [update_manual_eq]
    rfl
  · intro g r1 v1 b1 r2 v2 b2 mode hist
    by_cases hm : mode = "Auto"
    · subst hm
      simp only [update_dashboard, if_pos rfl]
      exact tickCore_shape _ _ _ _ _ _ _ _ _
    · simp only [update_dashboard, if_neg hm]
      exact tickCore_shape _ _ _ _ _ _ _ _ _
  · intro g a b c d e f det hist
    rw [tickCore_gen]
    rfl
  · intro g r1 v1 b1 r2 v2 b2 mode hist
    by_cases hm : mode = "Auto"
    · subst hm
      rw [update_auto_eq]
      exact tickCore_rows_readings _ _ _ _ _ _ _ _ _
    · simp only [update_dashboard, if_neg hm]
      exact tickCore_rows_readings _ _ _ _ _ _ _ _ _
  · intro g r1 v1 b1 r2 v2 b2 hist
    exact update_auto_eq g r1 v1 b1 r2 v2 b2 hist

theorem detScore_shift (rain vib blast slope c : ℚ) :
    detScore rain vib blast (slope + c) = detScore rain vib blast slope + c / 2 := by
  simp only [detScore]
  ring

theorem severity_classify_mono (s t : ℚ) (h : s ≤ t) :
    severity (classify s) ≤ severity (classify t) := by
  simp only [classify]
  split_ifs <;> simp [severity] <;> linarith

/-- C9: perturbing the slope by `+2k` adds exactly `k` to the
deterministic score; the classification is monotone in the score; in
deterministic mode layer 0 reproduces the bench's primary classification
and raw score, layer k scores exactly the primary raw score plus k, and
the severities across a bench's layer triple are weakly increasing. -/
theorem C9_layer_shift :
    (∀ (rain vib blast slope : ℚ) (k : ℕ),
       detScore rain vib blast (slope + 2 * k) =
         detScore rain vib blast slope + k) ∧
    (∀ s t : ℚ, s ≤ t → severity (classify s) ≤ severity (classify t)) ∧
    (∀ (g : RNG) (r : RiskResult) (bench : Bench),
       findBench r.bench = some bench →
       (layersFor g r true).map
           (fun p => p.1[0]?.map (fun L => (L.risk, L.score))) =
         some (some ((compute_score g r.rainfall r.vibration r.blast
             bench.slope true).1))) ∧
    (∀ (g : RNG) (r : RiskResult) (bench : Bench),
       findBench r.bench = some bench →
       ∀ k : ℕ, k < 3 →
       (layersFor g r true).map (fun p => p.1[k]?.map GeoLayer.score) =
         some (some (((compute_score g r.rainfall r.vibration r.blast
             bench.slope true).1).2 + k))) ∧
    (∀ (id : String) (coords : List (ℚ × ℚ)) (slope gr gv gb : ℚ)
       (j k : ℕ) (L : GeoLayer), j ≤ k → k < 3 →
       severity (((detLayersOf id coords slope gr gv gb).getD j L).risk) ≤
         severity (((detLayersOf id coords slope gr gv gb).getD k L).risk)) := by
  refine ⟨?_, ?_, ?_, ?_, ?_⟩
  · intro rain vib blast slope k
    rw [detScore_shift]
    ring
  · exact severity_classify_mono
  · intro g r bench hb
    rw [layersFor_det g r bench hb]
    simp [detLayersOf, detLayer, compute_score_det_eq]
  · intro g r bench hb k hk
    rw [layersFor_det g r bench hb]
    have h2 := detScore_shift r.rainfall r.vibration r.blast bench.slope 2
    have h4 := detScore_shift r.rainfall r.vibration r.blast bench.slope 4
    interval_cases k <;>
      norm_num [detLayersOf, detLayer, compute_score_det_eq, h2, h4]
  · intro id coords slope gr gv gb j k L hjk hk
    have h2 : detScore gr gv gb (slope + 2) = detScore gr gv gb slope + 1 := by
      rw [detScore_shift]; norm_num
    have h4 : detScore gr gv gb (slope + 4) = detScore gr gv gb slope + 2 := by
      rw [detScore_shift]; norm_num
    interval_cases k <;> interval_cases j <;>
      simp only [detLayersOf, detLayer, List.getD_cons_zero, List.getD_cons_succ] <;>
      exact severity_classify_mono _ _ (by linarith [h2, h4])

/-- Witness for C9 at Bench 1's result row: layer 0 reproduces the
primary pair; layer 2 scores the primary raw score plus 2. -/
theorem C9_layer_shift_witness :
    (findBench rowZero.bench = some ⟨"Bench 1", 35, bench1coords⟩ ∧ (2:ℕ) < 3) ∧
    (layersFor rngZero rowZero true).map
        (fun p => p.1[0]?.map (fun L => (L.risk, L.score))) =
      some (some ((compute_score rngZero rowZero.rainfall rowZero.vibration
          rowZero.blast 35 true).1)) ∧
    (layersFor rngZero rowZero true).map (fun p => p.1[2]?.map GeoLayer.score) =
      some (some (((compute_score rngZero rowZero.rainfall rowZero.vibration
          rowZero.blast 35 true).1).2 + ((2:ℕ) : ℚ))) :=
  ⟨⟨rfl, by norm_num⟩,
   C9_layer_shift.2.2.1 rngZero rowZero ⟨"Bench 1", 35, bench1coords⟩ rfl,
   C9_layer_shift.2.2.2.1 rngZero rowZero ⟨"Bench 1", 35, bench1coords⟩ rfl 2 (by norm_num)⟩

/-- C10: the per-bench score values stored in every HistoryRecord (and
hence in the CSV export and trend chart) and the Score column of the
results table are the primary score rounded to one decimal place, not
the raw real-valued score, while the geo-layer re-scoring receives the
unrounded reading fields and yields unrounded scores: stated in closed
form for Manual ticks; for the cycle body under an arbitrary flag
(rounded storage in rows and record, raw scores in the layers computed
from the raw readings); for the record/rows agreement in every mode; and
on a concrete input where rounding changes the value. -/
theorem C10_rounded_scores :
    (∀ (g : RNG) (r1 v1 b1 r2 v2 b2 : ℚ) (hist : List HistoryRecord),
       (update_dashboard g r1 v1 b1 r2 v2 b2 "Manual" hist).map
           (fun o => o.results.map RiskResult.score) =
         some [pyRound1 (detScore r1 v1 b1 35), pyRound1 (detScore r1 v1 b1 50),
               pyRound1 (detScore r2 v2 b2 45), pyRound1 (detScore r2 v2 b2 60)]) ∧
    (∀ (g : RNG) (r1 v1 b1 r2 v2 b2 : ℚ) (hist : List HistoryRecord),
       (update_dashboard g r1 v1 b1 r2 v2 b2 "Manual" hist).map
           (fun o => o.record.scores) =
         some [("Bench 1", pyRound1 (detScore r1 v1 b1 35)),
               ("Bench 2", pyRound1 (detScore r1 v1 b1 50)),
               ("Bench 3", pyRound1 (detScore r2 v2 b2 45)),
               ("Bench 4", pyRound1 (detScore r2 v2 b2 60))]) ∧
    (∀ (g : RNG) (r1 v1 b1 r2 v2 b2 : ℚ) (hist : List HistoryRecord),
       (update_dashboard g r1 v1 b1 r2 v2 b2 "Manual" hist).map
           (fun o => o.layers.map (fun L => (L.benchId, L.score))) =
         some [("Bench 1", detScore r1 v1 b1 35), ("Bench 1", detScore r1 v1 b1 37),
               ("Bench 1", detScore r1 v1 b1 39),
               ("Bench 2", detScore r1 v1 b1 50), ("Bench 2", detScore r1 v1 b1 52),
               ("Bench 2", detScore r1 v1 b1 54),
               ("Bench 3", detScore r2 v2 b2 45), ("Bench 3", detScore r2 v2 b2 47),
               ("Bench 3", detScore r2 v2 b2 49),
               ("Bench 4", detScore r2 v2 b2 60), ("Bench 4", detScore r2 v2 b2 62),
               ("Bench 4", detScore r2 v2 b2 64)]) ∧
    (pyRound1 (detScore 0 (1/100) 0 0) = 0 ∧ detScore 0 (1/100) 0 0 = 1/20) ∧
    (∀ (g : RNG) (a b c d e f : ℚ) (det : Bool) (hist : List HistoryRecord),
       (tickCore g a b c d e f det hist).map
           (fun o => (o.results.map RiskResult.score, o.record.scores)) =
         (let c1 := compute_score g a b c 35 det
          let c2 := compute_score c1.2 a b c 50 det
          let c3 := compute_score c2.2 d e f 45 det
          let c4 := compute_score c3.2 d e f 60 det
          some ([pyRound1 (c1.1).2, pyRound1 (c2.1).2,
                 pyRound1 (c3.1).2, pyRound1 (c4.1).2],
                [("Bench 1", pyRound1 (c1.1).2), ("Bench 2", pyRound1 (c2.1).2),
                 ("Bench 3", pyRound1 (c3.1).2), ("Bench 4", pyRound1 (c4.1).2)]))) ∧
    (∀ (g : RNG) (r1 v1 b1 r2 v2 b2 : ℚ) (mode : String)
       (hist : List HistoryRecord),
       (update_dashboard g r1 v1 b1 r2 v2 b2 mode hist).map
           (fun o => o.record.scores) =
         (update_dashboard g r1 v1 b1 r2 v2 b2 mode hist).map
           (fun o => o.results.map (fun r => (r.bench, r.score)))) ∧
    (∀ (g : RNG) (a b c d e f : ℚ) (det : Bool) (hist : List HistoryRecord),
       (tickCore g a b c d e f det hist).map
           (fun o => o.layers.map GeoLayer.score) =
         (let c1 := compute_score g a b c 35 det
          let c2 := compute_score c1.2 a b c 50 det
          let c3 := compute_score c2.2 d e f 45 det
          let c4 := compute_score c3.2 d e f 60 det
          let l1 := compute_score c4.2 a b c (35 + ((0:ℕ) : ℚ) * 2) det
          let l2 := compute_score l1.2 a b c (35 + ((1:ℕ) : ℚ) * 2) det
          let l3 := compute_score l2.2 a b c (35 + ((2:ℕ) : ℚ) * 2) det
          let l4 := compute_score l3.2 a b c (50 + ((0:ℕ) : ℚ) * 2) det
          let l5 := compute_score l4.2 a b c (50 + ((1:ℕ) : ℚ) * 2) det
          let l6 := compute_score l5.2 a b c (50 + ((2:ℕ) : ℚ) * 2) det
          let l7 := compute_score l6.2 d e f (45 + ((0:ℕ) : ℚ) * 2) det
          let l8 := compute_score l7.2 d e f (45 + ((1:ℕ) : ℚ) * 2) det
          let l9 := compute_score l8.2 d e f (45 + ((2:ℕ) : ℚ) * 2) det
          let l10 := compute_score l9.2 d e f (60 + ((0:ℕ) : ℚ) * 2) det
          let l11 := compute_score l10.2 d e f (60 + ((1:ℕ) : ℚ) * 2) det
          let l12 := compute_score l11.2 d e f (60 + ((2:ℕ) : ℚ) * 2) det
          some [(l1.1).2, (l2.1).2, (l3.1).2, (l4.1).2, (l5.1).2, (l6.1).2,
                (l7.1).2, (l8.1).2, (l9.1).2, (l10.1).2, (l11.1).2, (l12.1).2])) := by
  refine ⟨?_, ?_, ?_, ⟨?_, ?_⟩, ?_, ?_, ?_⟩
  · intro g r1 v1 b1 r2 v2 b2 hist
    rw [update_manual_eq]
    simp [detRow]
  · intro g r1 v1 b1 r2 v2 b2 hist
    rw [update_manual_eq]
    simp [detRecord]
  · intro g r1 v1 b1 r2 v2 b2 hist
    rw [update_manual_eq]
    norm_num [detLayersOf, detLayer]
  · norm_num [pyRound1, halfEven, detScore]
  · norm_num [detScore]
  · intro g a b c d e f det hist
    rw [tickCore_gen]
    rfl
  · intro g r1 v1 b1 r2 v2 b2 mode hist
    by_cases hm : mode = "Auto"
    · subst hm
      rw [update_auto_eq]
      exact tickCore_record_scores _ _ _ _ _ _ _ _ _
    · simp only [update_dashboard, if_neg hm]
      exact tickCore_record_scores _ _ _ _ _ _ _ _ _
  · intro g a b c d e f det hist
    rw [tickCore_gen]
    rfl

theorem lookupScore_cons_self (a : String) (v : ℚ) (rest : List (String × ℚ)) :
    lookupScore a ((a, v) :: rest) = some v := by
  simp [lookupScore]

theorem lookupScore_cons_ne (a : String) (v : ℚ) (rest : List (String × ℚ))
    (bid : String) (h : ¬a = bid) :
    lookupScore bid ((a, v) :: rest) = lookupScore bid rest := by
  simp [lookupScore, List.find?_cons, h]

theorem zip_lookup_scores (s : List (String × ℚ))
    (h : (s.map Prod.fst).Nodup) :
    (s.map Prod.fst).zip
        ((s.map Prod.fst).map (fun bid => (lookupScore bid s).getD 0)) = s := by
  induction s with
  | nil => rfl
  | cons p rest ih =>
    obtain ⟨a, v⟩ := p
    simp only [List.map_cons, List.nodup_cons] at h ⊢
    obtain ⟨ha, hrest⟩ := h
    rw [lookupScore_cons_self]
    have hmap : (rest.map Prod.fst).map
          (fun bid => (lookupScore bid ((a, v) :: rest)).getD 0) =
        (rest.map Prod.fst).map (fun bid => (lookupScore bid rest).getD 0) := by
      apply List.map_congr_left
      intro bid hbid
      rw [lookupScore_cons_ne]
      intro hEq
      exact ha (hEq ▸ hbid)
    rw [List.zip_cons_cons, hmap, ih hrest]
    rfl

theorem rowToRecord_recordToRow (benchIds : List String) (rec : HistoryRecord)
    (hk : rec.scores.map Prod.fst = benchIds) (hnd : benchIds.Nodup) :
    rowToRecord benchIds (recordToRow benchIds rec) = rec := by
  subst hk
  obtain ⟨a1, a2, a3, a4, a5, a6, s⟩ := rec
  simp only [rowToRecord, recordToRow, List.cons_append, List.nil_append,
    List.getD_cons_zero, List.getD_cons_succ, List.drop_succ_cons,
    List.drop_zero]
  simp only [HistoryRecord.mk.injEq, true_and]
  exact zip_lookup_scores s hnd

/-- C8: exporting the full history buffer (a header row plus one data row
per retained tick) and re-parsing the table reproduces exactly the same
number of rows as ticks recorded and the same field values of every
record, provided the bench columns are distinct and every record carries
scores keyed exactly by those benches. -/
theorem C8_csv_round_trip :
    ∀ (benchIds : List String) (hist : List HistoryRecord),
      benchIds.Nodup →
      (∀ rec ∈ hist, rec.scores.map Prod.fst = benchIds) →
      parseCsv (export_csv hist benchIds) = hist ∧
      (export_csv hist benchIds).2.length = hist.length ∧
      (export_csv hist benchIds).1 = csvHeader benchIds := by
  intro benchIds hist hnd hk
  refine ⟨?_, by simp [export_csv], rfl⟩
  simp only [parseCsv, export_csv]
  have hdr : (csvHeader benchIds).drop 6 = benchIds := by simp [csvHeader]
  rw [hdr, List.map_map]
  have hmap : ∀ rec ∈ hist,
      (rowToRecord benchIds ∘ recordToRow benchIds) rec = id rec := by
    intro rec hr
    exact rowToRecord_recordToRow benchIds rec (hk rec hr) hnd
  rw [List.map_congr_left hmap, List.map_id]

/-- Witness for C8: a one-record history over the four bench columns
round-trips through the export. -/
theorem C8_csv_round_trip_witness :
    (["Bench 1", "Bench 2", "Bench 3", "Bench 4"].Nodup ∧
     ∀ rec ∈ [recOne], rec.scores.map Prod.fst =
       ["Bench 1", "Bench 2", "Bench 3", "Bench 4"]) ∧
    (parseCsv (export_csv [recOne] ["Bench 1", "Bench 2", "Bench 3", "Bench 4"]) =
       [recOne] ∧
     (export_csv [recOne] ["Bench 1", "Bench 2", "Bench 3", "Bench 4"]).2.length =
       [recOne].length ∧
     (export_csv [recOne] ["Bench 1", "Bench 2", "Bench 3", "Bench 4"]).1 =
       csvHeader ["Bench 1", "Bench 2", "Bench 3", "Bench 4"]) :=
  ⟨⟨by decide, by decide⟩,
   C8_csv_round_trip ["Bench 1", "Bench 2", "Bench 3", "Bench 4"] [recOne]
     (by decide) (by decide)⟩
